import Mathlib

/-!
Shallow embedding of the client core of the solana-rpc-exporter
repository (pkg/rpc/client.go): the JSON-RPC envelope codec
(getResponse), the two-slot TTL cache consulted by GetVersion and
GetHealth, the bounded exponential-backoff connection probe
(TestConnection), and the thin typed method set.

Modelling choices:
  - Time is in whole seconds, as integers; `now` is passed explicitly
    where the Go code calls time.Now / time.Since.
  - The HTTP pipeline inside getResponse (marshal, request creation,
    POST, body read, JSON decode) is abstracted by an explicit
    `HttpOutcome` value saying at which stage it failed, or giving the
    decoded `Response` on success; the post-decode logic is translated
    literally.
  - Each typed method additionally returns the list of JSON-RPC
    requests it issued, so that properties about the number and shape
    of network calls are statable; a cache hit issues none.
  - Go's (value, error) return pairs are kept as pairs (with `Option`
    for the error and for nilable pointers), so that the value paired
    with a non-nil error is observable.
-/

namespace SolanaRpc

/-- Modelled from the spec: `RpcError = {code: integer, message: string,
method: string}`; `method` is populated by the client after decode. The
RpcError type is used by client.go but its declaration is not among the
provided sources. -/
structure RpcError where
  code : Int
  message : String
  method : String
deriving DecidableEq

/-- Modelled from the spec: `Response<T> = {result: T, error: RpcError}`
with `error.code == 0` meaning no error. The Response type is used by
client.go but its declaration is not among the provided sources. -/
structure Response (T : Type) where
  result : T
  error : RpcError
deriving DecidableEq

/-- Modelled from the spec: the "epoch info record" returned by
getEpochInfo. Its fields are not described by the spec and no claim
depends on them, so it is a field-less record; only the nil / non-nil
distinction of the returned pointer matters here. -/
structure EpochInfo where
deriving DecidableEq

/-- A JSON-RPC parameter as used by the typed method set: a slot number
(getBlockTime) or the `{commitment: <string>}` configuration object
(getEpochInfo, client.go line 188). -/
inductive Param where
  | int (n : Int)
  | commitmentConfig (commitment : String)
deriving DecidableEq

/-- Request (client.go lines 46-51): jsonrpc, id, method, params. -/
structure Request where
  jsonrpc : String
  id : Int
  method : String
  params : List Param
deriving DecidableEq

/-- The stage at which the HTTP pipeline inside getResponse failed, or
the decoded `Response` when marshalling, transport, body read and JSON
decode all succeeded. -/
inductive HttpOutcome (T : Type) where
  | marshalFailure
  | createRequestFailure
  | transportFailure
  | readFailure
  | decodeFailure
  | decoded (resp : Response T)
deriving DecidableEq

/-- The errors getResponse can return, one per return site (client.go
lines 124, 133, 144, 158, 166, 171): the transport error wraps the
method name, and the RPC error carries the full RpcError value. -/
inductive CallError where
  | marshalError
  | createRequestError
  | transportError (method : String)
  | readError
  | decodeError
  | rpcError (e : RpcError)
deriving DecidableEq

/-- getResponse (client.go lines 108-175): builds the Request
`{"jsonrpc":"2.0","id":1,"method":method,"params":params}`, runs the
HTTP pipeline (abstracted by `outcome`), and on a decoded response with
a non-zero error code attaches the method name to the error and returns
it as the failure. Returns the built request paired with the call's
result. -/
def getResponse {T : Type} (method : String) (params : List Param)
    (outcome : HttpOutcome T) : Request × Except CallError (Response T) :=
  let request : Request := { jsonrpc := "2.0", id := 1, method := method, params := params }
  (request,
    match outcome with
    | .marshalFailure => .error .marshalError
    | .createRequestFailure => .error .createRequestError
    | .transportFailure => .error (.transportError method)
    | .readFailure => .error .readError
    | .decodeFailure => .error .decodeError
    | .decoded resp =>
        if resp.error.code ≠ 0 then
          .error (.rpcError { resp.error with method := method })
        else
          .ok resp)

/-- cachedValue[T] (client.go lines 18-21); the timestamp is in seconds. -/
structure cachedValue (T : Type) where
  value : T
  timestamp : Int
deriving DecidableEq

/-- The claim-relevant fields of Client (client.go lines 33-44). The
embedded http.Client, the logger and the mutex carry no state any claim
mentions; `none` is Go's nil cache pointer. -/
structure Client where
  RpcUrl : String
  HttpTimeout : Int
  versionCache : Option (cachedValue String)
  healthCache : Option (cachedValue String)
  cacheValidity : Int
deriving DecidableEq

/-- NewRPCClient (client.go lines 56-77): stores the two constructor
arguments, fixes cacheValidity at 60 seconds, and leaves both cache
pointers at their zero value nil. -/
def NewRPCClient (rpcAddr : String) (httpTimeout : Int) : Client :=
  { RpcUrl := rpcAddr
    HttpTimeout := httpTimeout
    versionCache := none
    healthCache := none
    cacheValidity := 60 }

/-- The anonymous result struct of GetVersion (client.go lines 208-210):
`{Version string json:"solana-core"}`. -/
structure VersionResult where
  version : String
deriving DecidableEq

/-- The cache-hit condition of GetVersion (client.go line 198):
`versionCache != nil && time.Since(versionCache.timestamp) < cacheValidity`. -/
def versionFresh (c : Client) (now : Int) : Bool :=
  match c.versionCache with
  | some cv => decide (now - cv.timestamp < c.cacheValidity)
  | none => false

/-- The cache-hit condition of GetHealth (client.go line 229). -/
def healthFresh (c : Client) (now : Int) : Bool :=
  match c.healthCache with
  | some cv => decide (now - cv.timestamp < c.cacheValidity)
  | none => false

/-- The refresh path of GetVersion (client.go lines 208-223): one
getResponse call; on failure the client is unchanged and the empty
string is returned with the error; on success the version slot is
overwritten with the fetched value stamped `now`. -/
def GetVersionRefresh (c : Client) (now : Int)
    (outcome : HttpOutcome VersionResult) :
    (String × Option CallError) × Client × List Request :=
  let r := getResponse "getVersion" [] outcome
  match r.2 with
  | .error e => (("", some e), c, [r.1])
  | .ok resp =>
      ((resp.result.version, none),
        { c with versionCache := some ⟨resp.result.version, now⟩ }, [r.1])

/-- GetVersion (client.go lines 195-224): a fresh cache slot is returned
as-is with no request issued; otherwise the refresh path runs. Returns
((value, error), updated client, requests issued). -/
def GetVersion (c : Client) (now : Int)
    (outcome : HttpOutcome VersionResult) :
    (String × Option CallError) × Client × List Request :=
  match c.versionCache with
  | some cv =>
      if now - cv.timestamp < c.cacheValidity then ((cv.value, none), c, [])
      else GetVersionRefresh c now outcome
  | none => GetVersionRefresh c now outcome

/-- The refresh path of GetHealth (client.go lines 239-252). -/
def GetHealthRefresh (c : Client) (now : Int)
    (outcome : HttpOutcome String) :
    (String × Option CallError) × Client × List Request :=
  let r := getResponse "getHealth" [] outcome
  match r.2 with
  | .error e => (("", some e), c, [r.1])
  | .ok resp =>
      ((resp.result, none),
        { c with healthCache := some ⟨resp.result, now⟩ }, [r.1])

/-- GetHealth (client.go lines 226-253). -/
def GetHealth (c : Client) (now : Int)
    (outcome : HttpOutcome String) :
    (String × Option CallError) × Client × List Request :=
  match c.healthCache with
  | some cv =>
      if now - cv.timestamp < c.cacheValidity then ((cv.value, none), c, [])
      else GetHealthRefresh c now outcome
  | none => GetHealthRefresh c now outcome

/-- GetBlockTime (client.go lines 178-184): 0 on error, the decoded
result otherwise. -/
def GetBlockTime (slot : Int) (outcome : HttpOutcome Int) :
    (Int × Option CallError) × List Request :=
  let r := getResponse "getBlockTime" [Param.int slot] outcome
  match r.2 with
  | .error e => ((0, some e), [r.1])
  | .ok resp => ((resp.result, none), [r.1])

/-- GetEpochInfo (client.go lines 186-193): nil (`none`) on error, a
pointer to the decoded result otherwise. -/
def GetEpochInfo (commitment : String) (outcome : HttpOutcome EpochInfo) :
    (Option EpochInfo × Option CallError) × List Request :=
  let r := getResponse "getEpochInfo" [Param.commitmentConfig commitment] outcome
  match r.2 with
  | .error e => ((none, some e), [r.1])
  | .ok resp => ((some resp.result, none), [r.1])

/-- GetMinimumLedgerSlot (client.go lines 255-261). -/
def GetMinimumLedgerSlot (outcome : HttpOutcome Int) :
    (Int × Option CallError) × List Request :=
  let r := getResponse "minimumLedgerSlot" [] outcome
  match r.2 with
  | .error e => ((0, some e), [r.1])
  | .ok resp => ((resp.result, none), [r.1])

/-- GetFirstAvailableBlock (client.go lines 263-269). -/
def GetFirstAvailableBlock (outcome : HttpOutcome Int) :
    (Int × Option CallError) × List Request :=
  let r := getResponse "getFirstAvailableBlock" [] outcome
  match r.2 with
  | .error e => ((0, some e), [r.1])
  | .ok resp => ((resp.result, none), [r.1])

/-- The three ways TestConnection can return (client.go lines 87, 98,
105): immediate success, the context's cancellation error observed
during a backoff wait, and the terminal error reporting the attempt
count and wrapping the last observed error. -/
inductive ProbeResult where
  | ok
  | ctxCancelled
  | failed (attempts : Nat) (lastErr : Option CallError)
deriving DecidableEq

/-- The retry loop of TestConnection (client.go lines 84-103), compiled
with `remaining = maxRetries - i` as the structural measure. `attempt i`
is the error of the i-th GetVersion call (none = success); `cancel i`
says whether ctx.Done fires during the wait after attempt i. Returns
(result, attempts performed, completed wait durations in seconds). The
`remaining = 1` case is the final attempt: no wait follows it
(client.go line 95) and a failure there falls out of the loop into the
terminal error. -/
def testConnectionLoop (attempt : Nat → Option CallError)
    (cancel : Nat → Bool) (maxRetries : Nat) :
    Nat → Nat → Int → Option CallError → ProbeResult × Nat × List Int
  | 0, _i, _delay, lastErr => (.failed maxRetries lastErr, 0, [])
  | 1, i, _delay, _lastErr =>
      match attempt i with
      | none => (.ok, 1, [])
      | some e => (.failed maxRetries (some e), 1, [])
  | n + 2, i, delay, _lastErr =>
      match attempt i with
      | none => (.ok, 1, [])
      | some e =>
          if cancel i then (.ctxCancelled, 1, [])
          else
            let rest :=
              testConnectionLoop attempt cancel maxRetries (n + 1) (i + 1)
                (delay * 2) (some e)
            (rest.1, rest.2.1 + 1, delay :: rest.2.2)

/-- TestConnection (client.go lines 79-106): maxRetries = 3, initial
retryDelay = 2 seconds, doubling after each completed wait. -/
def TestConnection (attempt : Nat → Option CallError)
    (cancel : Nat → Bool) : ProbeResult × Nat × List Int :=
  testConnectionLoop attempt cancel 3 3 0 2 none

/-- A sample client state for instantiating the cache theorems: version
slot filled at time 0, health slot empty, TTL as set by the constructor. -/
def sampleClient : Client :=
  { RpcUrl := "http://localhost:8899"
    HttpTimeout := 10
    versionCache := some ⟨"1.18.0", 0⟩
    healthCache := none
    cacheValidity := 60 }

/-! ## Helper lemmas -/

theorem getResponse_fst {T : Type} (method : String) (params : List Param)
    (outcome : HttpOutcome T) :
    (getResponse method params outcome).1 =
      ⟨"2.0", 1, method, params⟩ := rfl

theorem getVersionRefresh_requests (c : Client) (now : Int)
    (outcome : HttpOutcome VersionResult) :
    (GetVersionRefresh c now outcome).2.2 =
      [⟨"2.0", 1, "getVersion", []⟩] := by
  unfold GetVersionRefresh
  cases h : (getResponse "getVersion" [] outcome).2 <;> simp [h, getResponse_fst]

theorem getHealthRefresh_requests (c : Client) (now : Int)
    (outcome : HttpOutcome String) :
    (GetHealthRefresh c now outcome).2.2 =
      [⟨"2.0", 1, "getHealth", []⟩] := by
  unfold GetHealthRefresh
  cases h : (getResponse "getHealth" [] outcome).2 <;> simp [h, getResponse_fst]

theorem getVersion_not_fresh (c : Client) (now : Int)
    (outcome : HttpOutcome VersionResult) (h : versionFresh c now = false) :
    GetVersion c now outcome = GetVersionRefresh c now outcome := by
  unfold GetVersion
  unfold versionFresh at h
  cases hc : c.versionCache with
  | none => rfl
  | some cv =>
      rw [hc] at h
      simp only [decide_eq_false_iff_not] at h
      simp [h]

theorem getVersion_fresh (c : Client) (now : Int)
    (outcome : HttpOutcome VersionResult) (cv : cachedValue String)
    (hc : c.versionCache = some cv) (h : versionFresh c now = true) :
    GetVersion c now outcome = ((cv.value, none), c, []) := by
  unfold GetVersion
  unfold versionFresh at h
  rw [hc] at h ⊢
  simp only [decide_eq_true_eq] at h
  simp [h]

theorem getHealth_not_fresh (c : Client) (now : Int)
    (outcome : HttpOutcome String) (h : healthFresh c now = false) :
    GetHealth c now outcome = GetHealthRefresh c now outcome := by
  unfold GetHealth
  unfold healthFresh at h
  cases hc : c.healthCache with
  | none => rfl
  | some cv =>
      rw [hc] at h
      simp only [decide_eq_false_iff_not] at h
      simp [h]

theorem getHealth_fresh (c : Client) (now : Int)
    (outcome : HttpOutcome String) (cv : cachedValue String)
    (hc : c.healthCache = some cv) (h : healthFresh c now = true) :
    GetHealth c now outcome = ((cv.value, none), c, []) := by
  unfold GetHealth
  unfold healthFresh at h
  rw [hc] at h ⊢
  simp only [decide_eq_true_eq] at h
  simp [h]

theorem versionFresh_true_iff (c : Client) (now : Int) :
    versionFresh c now = true ↔
      ∃ cv, c.versionCache = some cv ∧ now - cv.timestamp < c.cacheValidity := by
  unfold versionFresh
  cases hc : c.versionCache <;> simp [hc]

theorem healthFresh_true_iff (c : Client) (now : Int) :
    healthFresh c now = true ↔
      ∃ cv, c.healthCache = some cv ∧ now - cv.timestamp < c.cacheValidity := by
  unfold healthFresh
  cases hc : c.healthCache <;> simp [hc]

/-! ## Claim theorems -/

/-- C1: for every method name and decoded response whose error code is
non-zero, getResponse attaches the method name to the error and returns
it as the failure result, whatever the result field holds; the result
is never returned. -/
theorem getResponse_error_precedence {T : Type} (method : String)
    (params : List Param) (resp : Response T)
    (h : resp.error.code ≠ 0) :
    (getResponse method params (.decoded resp)).2 =
      .error (.rpcError ⟨resp.error.code, resp.error.message, method⟩) := by
  simp [getResponse, h]

/-- Witness for C1: a decoded response with error code 7 and a populated
result turns into the rpcError carrying the method name. -/
theorem getResponse_error_precedence_witness :
    (getResponse "getBlockTime" [] (.decoded (⟨42, ⟨7, "boom", ""⟩⟩ : Response Int))).2 =
      .error (.rpcError ⟨7, "boom", "getBlockTime"⟩) :=
  getResponse_error_precedence "getBlockTime" [] ⟨42, ⟨7, "boom", ""⟩⟩ (by decide)

/-- C8: GetVersion writes only the version slot and GetHealth only the
health slot; RpcUrl, HttpTimeout and cacheValidity never change. -/
theorem cached_methods_frame (c : Client) (now : Int)
    (ov : HttpOutcome VersionResult) (oh : HttpOutcome String) :
    ((GetVersion c now ov).2.1.healthCache = c.healthCache ∧
     (GetVersion c now ov).2.1.RpcUrl = c.RpcUrl ∧
     (GetVersion c now ov).2.1.HttpTimeout = c.HttpTimeout ∧
     (GetVersion c now ov).2.1.cacheValidity = c.cacheValidity) ∧
    ((GetHealth c now oh).2.1.versionCache = c.versionCache ∧
     (GetHealth c now oh).2.1.RpcUrl = c.RpcUrl ∧
     (GetHealth c now oh).2.1.HttpTimeout = c.HttpTimeout ∧
     (GetHealth c now oh).2.1.cacheValidity = c.cacheValidity) := by
  constructor
  · unfold GetVersion GetVersionRefresh
    cases hc : c.versionCache with
    | none => cases h : (getResponse "getVersion" [] ov).2 <;> simp [h]
    | some cv =>
        by_cases hf : now - cv.timestamp < c.cacheValidity
        · simp [hf]
        · cases h : (getResponse "getVersion" [] ov).2 <;> simp [hf, h]
  · unfold GetHealth GetHealthRefresh
    cases hc : c.healthCache with
    | none => cases h : (getResponse "getHealth" [] oh).2 <;> simp [h]
    | some cv =>
        by_cases hf : now - cv.timestamp < c.cacheValidity
        · simp [hf]
        · cases h : (getResponse "getHealth" [] oh).2 <;> simp [hf, h]

/-- C2: for both cached methods, a value is returned without a network
request exactly when the slot is populated and the elapsed time is
strictly below the TTL; a fresh hit returns the stored value and leaves
the client untouched; a stale or empty slot issues exactly one refresh
request; and a read at exactly timestamp + TTL is already stale. -/
theorem cache_freshness (c : Client) (now : Int)
    (ov : HttpOutcome VersionResult) (oh : HttpOutcome String) :
    ((GetVersion c now ov).2.2 = [] ↔ versionFresh c now = true) ∧
    (∀ cv, c.versionCache = some cv → versionFresh c now = true →
      GetVersion c now ov = ((cv.value, none), c, [])) ∧
    (versionFresh c now = false → (GetVersion c now ov).2.2.length = 1) ∧
    (∀ cv, c.versionCache = some cv →
      versionFresh c (cv.timestamp + c.cacheValidity) = false) ∧
    ((GetHealth c now oh).2.2 = [] ↔ healthFresh c now = true) ∧
    (∀ cv, c.healthCache = some cv → healthFresh c now = true →
      GetHealth c now oh = ((cv.value, none), c, [])) ∧
    (healthFresh c now = false → (GetHealth c now oh).2.2.length = 1) ∧
    (∀ cv, c.healthCache = some cv →
      healthFresh c (cv.timestamp + c.cacheValidity) = false) := by
  refine ⟨?_, ?_, ?_, ?_, ?_, ?_, ?_, ?_⟩
  · cases hf : versionFresh c now with
    | false =>
        rw [getVersion_not_fresh c now ov hf, getVersionRefresh_requests]
        simp
    | true =>
        obtain ⟨cv, hc, _⟩ := (versionFresh_true_iff c now).mp hf
        rw [getVersion_fresh c now ov cv hc hf]
        simp
  · intro cv hc hf
    exact getVersion_fresh c now ov cv hc hf
  · intro hf
    rw [getVersion_not_fresh c now ov hf, getVersionRefresh_requests]
    rfl
  · intro cv hc
    unfold versionFresh
    rw [hc]
    simp only [decide_eq_false_iff_not]
    omega
  · cases hf : healthFresh c now with
    | false =>
        rw [getHealth_not_fresh c now oh hf, getHealthRefresh_requests]
        simp
    | true =>
        obtain ⟨cv, hc, _⟩ := (healthFresh_true_iff c now).mp hf
        rw [getHealth_fresh c now oh cv hc hf]
        simp
  · intro cv hc hf
    exact getHealth_fresh c now oh cv hc hf
  · intro hf
    rw [getHealth_not_fresh c now oh hf, getHealthRefresh_requests]
    rfl
  · intro cv hc
    unfold healthFresh
    rw [hc]
    simp only [decide_eq_false_iff_not]
    omega

/-- Witness for C2: at time 10 the version slot stamped 0 is a cache hit
with no request issued; the empty health slot issues one request. -/
theorem cache_freshness_witness :
    GetVersion sampleClient 10 .transportFailure =
      (("1.18.0", none), sampleClient, []) ∧
    (GetHealth sampleClient 10 .transportFailure).2.2.length = 1 :=
  ⟨(cache_freshness sampleClient 10 .transportFailure .transportFailure).2.1
      ⟨"1.18.0", 0⟩ rfl (by decide),
   (cache_freshness sampleClient 10 .transportFailure .transportFailure).2.2.2.2.2.2.1
      (by decide)⟩

/-- C4: when the refresh call fails on a stale or empty slot, both cached
methods surface the error and return the client — in particular both
cache slots — exactly as it was. -/
theorem refresh_failure_preserves_cache (c : Client) (now : Int)
    (ov : HttpOutcome VersionResult) (oh : HttpOutcome String)
    (ev eh : CallError)
    (hv : (getResponse "getVersion" [] ov).2 = .error ev)
    (hh : (getResponse "getHealth" [] oh).2 = .error eh)
    (hvs : versionFresh c now = false) (hhs : healthFresh c now = false) :
    GetVersion c now ov =
      (("", some ev), c, [⟨"2.0", 1, "getVersion", []⟩]) ∧
    GetHealth c now oh =
      (("", some eh), c, [⟨"2.0", 1, "getHealth", []⟩]) := by
  constructor
  · rw [getVersion_not_fresh c now ov hvs]
    unfold GetVersionRefresh
    simp [hv, getResponse_fst]
  · rw [getHealth_not_fresh c now oh hhs]
    unfold GetHealthRefresh
    simp [hh, getResponse_fst]

/-- Witness for C4: a transport failure at time 100 (stale version slot,
empty health slot) surfaces the error and leaves the client unchanged. -/
theorem refresh_failure_preserves_cache_witness :
    GetVersion sampleClient 100 .transportFailure =
      (("", some (.transportError "getVersion")), sampleClient,
        [⟨"2.0", 1, "getVersion", []⟩]) ∧
    GetHealth sampleClient 100 .transportFailure =
      (("", some (.transportError "getHealth")), sampleClient,
        [⟨"2.0", 1, "getHealth", []⟩]) :=
  refresh_failure_preserves_cache sampleClient 100 .transportFailure .transportFailure
    (.transportError "getVersion") (.transportError "getHealth")
    rfl rfl (by decide) (by decide)

/-- C6: every codec invocation builds the request with jsonrpc "2.0" and
id 1 around exactly the supplied method and ordered params; each typed
method supplies the wire-table method name and parameter shape
(getBlockTime with [slot], getEpochInfo with [{commitment}], the others
with []), the cached methods on their refresh path. -/
theorem request_envelope_shape :
    (∀ (T : Type) (method : String) (params : List Param) (o : HttpOutcome T),
      (getResponse method params o).1 = ⟨"2.0", 1, method, params⟩) ∧
    (∀ (slot : Int) (o : HttpOutcome Int),
      (GetBlockTime slot o).2 = [⟨"2.0", 1, "getBlockTime", [.int slot]⟩]) ∧
    (∀ (commitment : String) (o : HttpOutcome EpochInfo),
      (GetEpochInfo commitment o).2 =
        [⟨"2.0", 1, "getEpochInfo", [.commitmentConfig commitment]⟩]) ∧
    (∀ o : HttpOutcome Int,
      (GetMinimumLedgerSlot o).2 = [⟨"2.0", 1, "minimumLedgerSlot", []⟩]) ∧
    (∀ o : HttpOutcome Int,
      (GetFirstAvailableBlock o).2 = [⟨"2.0", 1, "getFirstAvailableBlock", []⟩]) ∧
    (∀ (c : Client) (now : Int) (o : HttpOutcome VersionResult),
      (GetVersion c now o).2.2 = [] ∨
      (GetVersion c now o).2.2 = [⟨"2.0", 1, "getVersion", []⟩]) ∧
    (∀ (c : Client) (now : Int) (o : HttpOutcome String),
      (GetHealth c now o).2.2 = [] ∨
      (GetHealth c now o).2.2 = [⟨"2.0", 1, "getHealth", []⟩]) := by
  refine ⟨fun T method params o => rfl, ?_, ?_, ?_, ?_, ?_, ?_⟩
  · intro slot o
    unfold GetBlockTime
    cases h : (getResponse "getBlockTime" [Param.int slot] o).2 <;>
      simp [h, getResponse_fst]
  · intro commitment o
    unfold GetEpochInfo
    cases h : (getResponse "getEpochInfo" [Param.commitmentConfig commitment] o).2 <;>
      simp [h, getResponse_fst]
  · intro o
    unfold GetMinimumLedgerSlot
    cases h : (getResponse "minimumLedgerSlot" [] o).2 <;>
      simp [h, getResponse_fst]
  · intro o
    unfold GetFirstAvailableBlock
    cases h : (getResponse "getFirstAvailableBlock" [] o).2 <;>
      simp [h, getResponse_fst]
  · intro c now o
    cases hf : versionFresh c now with
    | true =>
        obtain ⟨cv, hc, _⟩ := (versionFresh_true_iff c now).mp hf
        left
        rw [getVersion_fresh c now o cv hc hf]
    | false =>
        right
        rw [getVersion_not_fresh c now o hf, getVersionRefresh_requests]
  · intro c now o
    cases hf : healthFresh c now with
    | true =>
        obtain ⟨cv, hc, _⟩ := (healthFresh_true_iff c now).mp hf
        left
        rw [getHealth_fresh c now o cv hc hf]
    | false =>
        right
        rw [getHealth_not_fresh c now o hf, getHealthRefresh_requests]

/-- C7: every typed method other than the connection probe issues at
most one codec invocation per call, and a codec failure is surfaced to
the caller unchanged on that first and only attempt. -/
theorem typed_methods_no_retry :
    (∀ (slot : Int) (o : HttpOutcome Int) (e : CallError),
      (GetBlockTime slot o).2.length ≤ 1 ∧
      ((getResponse "getBlockTime" [Param.int slot] o).2 = .error e →
        (GetBlockTime slot o).1.2 = some e)) ∧
    (∀ (commitment : String) (o : HttpOutcome EpochInfo) (e : CallError),
      (GetEpochInfo commitment o).2.length ≤ 1 ∧
      ((getResponse "getEpochInfo" [Param.commitmentConfig commitment] o).2 = .error e →
        (GetEpochInfo commitment o).1.2 = some e)) ∧
    (∀ (o : HttpOutcome Int) (e : CallError),
      (GetMinimumLedgerSlot o).2.length ≤ 1 ∧
      ((getResponse "minimumLedgerSlot" [] o).2 = .error e →
        (GetMinimumLedgerSlot o).1.2 = some e)) ∧
    (∀ (o : HttpOutcome Int) (e : CallError),
      (GetFirstAvailableBlock o).2.length ≤ 1 ∧
      ((getResponse "getFirstAvailableBlock" [] o).2 = .error e →
        (GetFirstAvailableBlock o).1.2 = some e)) ∧
    (∀ (c : Client) (now : Int) (o : HttpOutcome VersionResult) (e : CallError),
      (GetVersion c now o).2.2.length ≤ 1 ∧
      (versionFresh c now = false →
        (getResponse "getVersion" [] o).2 = .error e →
        (GetVersion c now o).1.2 = some e)) ∧
    (∀ (c : Client) (now : Int) (o : HttpOutcome String) (e : CallError),
      (GetHealth c now o).2.2.length ≤ 1 ∧
      (healthFresh c now = false →
        (getResponse "getHealth" [] o).2 = .error e →
        (GetHealth c now o).1.2 = some e)) := by
  refine ⟨?_, ?_, ?_, ?_, ?_, ?_⟩
  · intro slot o e
    unfold GetBlockTime
    cases h : (getResponse "getBlockTime" [Param.int slot] o).2 <;> simp [h]
  · intro commitment o e
    unfold GetEpochInfo
    cases h : (getResponse "getEpochInfo" [Param.commitmentConfig commitment] o).2 <;>
      simp [h]
  · intro o e
    unfold GetMinimumLedgerSlot
    cases h : (getResponse "minimumLedgerSlot" [] o).2 <;> simp [h]
  · intro o e
    unfold GetFirstAvailableBlock
    cases h : (getResponse "getFirstAvailableBlock" [] o).2 <;> simp [h]
  · intro c now o e
    constructor
    · cases hf : versionFresh c now with
      | true =>
          obtain ⟨cv, hc, _⟩ := (versionFresh_true_iff c now).mp hf
          rw [getVersion_fresh c now o cv hc hf]
          simp
      | false =>
          rw [getVersion_not_fresh c now o hf, getVersionRefresh_requests]
          simp
    · intro hf he
      rw [getVersion_not_fresh c now o hf]
      unfold GetVersionRefresh
      simp [he]
  · intro c now o e
    constructor
    · cases hf : healthFresh c now with
      | true =>
          obtain ⟨cv, hc, _⟩ := (healthFresh_true_iff c now).mp hf
          rw [getHealth_fresh c now o cv hc hf]
          simp
      | false =>
          rw [getHealth_not_fresh c now o hf, getHealthRefresh_requests]
          simp
    · intro hf he
      rw [getHealth_not_fresh c now o hf]
      unfold GetHealthRefresh
      simp [he]

/-- Witness for C7: a transport failure surfaces on the first and only
attempt of GetBlockTime and of a stale-cache GetVersion. -/
theorem typed_methods_no_retry_witness :
    (GetBlockTime 5 .transportFailure).1.2 =
      some (.transportError "getBlockTime") ∧
    (GetVersion sampleClient 100 .transportFailure).1.2 =
      some (.transportError "getVersion") :=
  ⟨(typed_methods_no_retry.1 5 .transportFailure
      (.transportError "getBlockTime")).2 rfl,
   (typed_methods_no_retry.2.2.2.2.1 sampleClient 100 .transportFailure
      (.transportError "getVersion")).2 (by decide) rfl⟩

/-- C9: whenever a typed method returns a non-nil error, the paired
result value is the zero value of its result type: 0, nil or the empty
string. -/
theorem zero_value_on_error :
    (∀ (slot : Int) (o : HttpOutcome Int) (e : CallError),
      (GetBlockTime slot o).1.2 = some e → (GetBlockTime slot o).1.1 = 0) ∧
    (∀ (commitment : String) (o : HttpOutcome EpochInfo) (e : CallError),
      (GetEpochInfo commitment o).1.2 = some e →
        (GetEpochInfo commitment o).1.1 = none) ∧
    (∀ (o : HttpOutcome Int) (e : CallError),
      (GetMinimumLedgerSlot o).1.2 = some e → (GetMinimumLedgerSlot o).1.1 = 0) ∧
    (∀ (o : HttpOutcome Int) (e : CallError),
      (GetFirstAvailableBlock o).1.2 = some e →
        (GetFirstAvailableBlock o).1.1 = 0) ∧
    (∀ (c : Client) (now : Int) (o : HttpOutcome VersionResult) (e : CallError),
      (GetVersion c now o).1.2 = some e → (GetVersion c now o).1.1 = "") ∧
    (∀ (c : Client) (now : Int) (o : HttpOutcome String) (e : CallError),
      (GetHealth c now o).1.2 = some e → (GetHealth c now o).1.1 = "") := by
  refine ⟨?_, ?_, ?_, ?_, ?_, ?_⟩
  · intro slot o e
    unfold GetBlockTime
    cases h : (getResponse "getBlockTime" [Param.int slot] o).2 <;> simp [h]
  · intro commitment o e
    unfold GetEpochInfo
    cases h : (getResponse "getEpochInfo" [Param.commitmentConfig commitment] o).2 <;>
      simp [h]
  · intro o e
    unfold GetMinimumLedgerSlot
    cases h : (getResponse "minimumLedgerSlot" [] o).2 <;> simp [h]
  · intro o e
    unfold GetFirstAvailableBlock
    cases h : (getResponse "getFirstAvailableBlock" [] o).2 <;> simp [h]
  · intro c now o e
    cases hf : versionFresh c now with
    | true =>
        obtain ⟨cv, hc, _⟩ := (versionFresh_true_iff c now).mp hf
        rw [getVersion_fresh c now o cv hc hf]
        simp
    | false =>
        rw [getVersion_not_fresh c now o hf]
        unfold GetVersionRefresh
        cases h : (getResponse "getVersion" [] o).2 <;> simp [h]
  · intro c now o e
    cases hf : healthFresh c now with
    | true =>
        obtain ⟨cv, hc, _⟩ := (healthFresh_true_iff c now).mp hf
        rw [getHealth_fresh c now o cv hc hf]
        simp
    | false =>
        rw [getHealth_not_fresh c now o hf]
        unfold GetHealthRefresh
        cases h : (getResponse "getHealth" [] o).2 <;> simp [h]

/-- Witness for C9: a decode failure leaves GetBlockTime at 0,
GetEpochInfo at nil and a stale-cache GetVersion at the empty string. -/
theorem zero_value_on_error_witness :
    (GetBlockTime 7 .decodeFailure).1.1 = 0 ∧
    (GetEpochInfo "finalized" .decodeFailure).1.1 = none ∧
    (GetVersion sampleClient 100 .decodeFailure).1.1 = "" :=
  ⟨zero_value_on_error.1 7 .decodeFailure .decodeError rfl,
   zero_value_on_error.2.1 "finalized" .decodeFailure .decodeError rfl,
   zero_value_on_error.2.2.2.2.1 sampleClient 100 .decodeFailure .decodeError
     (by decide)⟩

/-- C3: with maxAttempts 3 and initial delay 2s, if every attempt fails
and cancellation never fires, the probe performs exactly 3 attempts,
completes exactly the two waits 2s then 4s (none after attempt 3), and
returns the terminal error wrapping the last error and reporting 3
attempts; if the first success is at attempt k it returns ok right
there, after k + 1 attempts and only the k earlier waits. -/
theorem testConnection_backoff :
    (∀ (attempt : Nat → Option CallError) (cancel : Nat → Bool)
        (e0 e1 e2 : CallError),
      attempt 0 = some e0 → attempt 1 = some e1 → attempt 2 = some e2 →
      (∀ i, cancel i = false) →
      TestConnection attempt cancel = (.failed 3 (some e2), 3, [2, 4])) ∧
    (∀ (attempt : Nat → Option CallError) (cancel : Nat → Bool) (k : Nat),
      k < 3 → attempt k = none → (∀ j, j < k → attempt j ≠ none) →
      (∀ i, cancel i = false) →
      TestConnection attempt cancel = (.ok, k + 1, List.take k [2, 4])) := by
  constructor
  · intro attempt cancel e0 e1 e2 h0 h1 h2 hc
    simp [TestConnection, testConnectionLoop, h0, h1, h2, hc]
  · intro attempt cancel k hk hsucc hne hc
    interval_cases k
    · simp [TestConnection, testConnectionLoop, hsucc]
    · obtain ⟨e0, he0⟩ := Option.ne_none_iff_exists'.mp (hne 0 (by omega))
      simp [TestConnection, testConnectionLoop, he0, hsucc, hc]
    · obtain ⟨e0, he0⟩ := Option.ne_none_iff_exists'.mp (hne 0 (by omega))
      obtain ⟨e1, he1⟩ := Option.ne_none_iff_exists'.mp (hne 1 (by omega))
      simp [TestConnection, testConnectionLoop, he0, he1, hsucc, hc]

/-- Witness for C3: with every attempt failing with a read error and no
cancellation, the probe fails after 3 attempts having waited 2s and 4s. -/
theorem testConnection_backoff_witness :
    TestConnection (fun _ => some .readError) (fun _ => false) =
      (.failed 3 (some .readError), 3, [2, 4]) :=
  testConnection_backoff.1 (fun _ => some .readError) (fun _ => false)
    .readError .readError .readError rfl rfl rfl (fun _ => rfl)

/-- C5: if cancellation fires during the backoff wait that follows
failed attempt k, the probe returns the cancellation result — not the
recorded RPC error — after exactly k + 1 attempts, completing none of
the aborted wait (only the k earlier waits). -/
theorem testConnection_cancellation (attempt : Nat → Option CallError)
    (cancel : Nat → Bool) (k : Nat) (hk : k < 2)
    (hfail : ∀ j, j ≤ k → attempt j ≠ none)
    (hbefore : ∀ j, j < k → cancel j = false)
    (hcanc : cancel k = true) :
    (TestConnection attempt cancel).1 = .ctxCancelled ∧
    (TestConnection attempt cancel).2.1 = k + 1 ∧
    (TestConnection attempt cancel).2.2 = List.take k [2, 4] := by
  interval_cases k
  · obtain ⟨e0, he0⟩ := Option.ne_none_iff_exists'.mp (hfail 0 (by omega))
    simp [TestConnection, testConnectionLoop, he0, hcanc]
  · obtain ⟨e0, he0⟩ := Option.ne_none_iff_exists'.mp (hfail 0 (by omega))
    obtain ⟨e1, he1⟩ := Option.ne_none_iff_exists'.mp (hfail 1 (by omega))
    simp [TestConnection, testConnectionLoop, he0, he1, hcanc,
      hbefore 0 (by omega)]

/-- Witness for C5: cancellation during the first wait aborts the probe
after one attempt with the cancellation result and no completed waits. -/
theorem testConnection_cancellation_witness :
    (TestConnection (fun _ => some .readError) (fun _ => true)).1 =
      .ctxCancelled ∧
    (TestConnection (fun _ => some .readError) (fun _ => true)).2.1 = 1 ∧
    (TestConnection (fun _ => some .readError) (fun _ => true)).2.2 =
      List.take 0 [2, 4] :=
  testConnection_cancellation (fun _ => some .readError) (fun _ => true) 0
    (by omega) (fun j _ => by simp) (fun j hj => absurd hj (by omega)) rfl

/-- C10: NewRPCClient fixes the cache TTL at 60 seconds for every pair
of constructor arguments, and both cache slots start empty. -/
theorem newRPCClient_ttl_and_empty_slots (rpcAddr : String) (httpTimeout : Int) :
    (NewRPCClient rpcAddr httpTimeout).cacheValidity = 60 ∧
    (NewRPCClient rpcAddr httpTimeout).versionCache = none ∧
    (NewRPCClient rpcAddr httpTimeout).healthCache = none :=
  ⟨rfl, rfl, rfl⟩

end SolanaRpc
